import Mathlib

/-!
Shallow embedding of the SSH connection core of mcp-multi-ssh
(`SSHConnection` and `SSHConnectionPool`), translated from the TypeScript
source.  Asynchronous interactions with the transport (the ssh2 `Client`),
the filesystem and timers are modelled by explicit environment records
describing the outcome of each asynchronous step, and by a trace of
side-effecting actions (`Action`) that each operation emits.  Timestamps
are naturals (milliseconds, as `Date.now()`).
-/

namespace MultiSSH

/-- Connection descriptor, from `src/types/config.ts` (`SSHConnectionConfig`). -/
structure SSHConnectionConfig where
  host : String
  port : Nat
  username : String
  privateKeyPath : Option String
  password : Option String
  keepaliveInterval : Option Nat
  keepaliveCountMax : Option Nat
  readyTimeout : Option Nat
deriving Repr, DecidableEq

/-- The configuration object handed to the transport's `connect` call
(the `cfg` record built inside `SSHConnection.connect`). -/
structure TransportCfg where
  host : String
  port : Nat
  username : String
  keepaliveInterval : Nat
  keepaliveCountMax : Nat
  readyTimeout : Nat
  privateKey : Option String
  password : Option String
deriving Repr, DecidableEq

/-- Side-effecting actions performed against the outside world (transport,
filesystem, command channel).  Transport handles (`Client` objects) are
identified by a `Nat` id. -/
inductive Action where
  | removeAllListeners (client : Nat)
  | endTransport (client : Nat)
  | newClient (client : Nat)
  | registerHandlers (client : Nat)
  | readKeyFile (path : String)
  | transportOpen (client : Nat) (cfg : TransportCfg)
  | chanExec (command : String)
  | streamClose
deriving Repr, DecidableEq

/-- State of one `SSHConnection`.  `client` is the transport handle
(`null` = `none`); `handlersAttached` records whether the long-lived
error/end/close handlers are attached to the current client (they are
attached by `connect` and removed by `removeAllListeners`);
`reconnectTimer` is `some delay` when a reconnect timer is pending
(a fired or cleared timer handle is behaviourally inert in the source,
so it is modelled as `none`). -/
structure SSHConnection where
  client : Option Nat
  handlersAttached : Bool
  config : SSHConnectionConfig
  isConnected : Bool
  reconnectTimer : Option Nat
  lastActivity : Nat
  commandTimeout : Nat
deriving Repr, DecidableEq

/-- Default of the `commandTimeout` constructor parameter (60000 ms). -/
def defaultCommandTimeoutMs : Nat := 60000

/-- The 30-minute idle cutoff of `scheduleReconnect`, in ms. -/
def thirtyMinutesMs : Int := 30 * 60 * 1000

/-- Delay of the reconnect timer armed by `scheduleReconnect` (5000 ms). -/
def reconnectDelayMs : Nat := 5000

/-- `new SSHConnection(config, commandTimeout)`: fields start as
`client = null`, `isConnected = false`, `reconnectTimer = null`,
`lastActivity = Date.now()` (the construction instant `now`). -/
def mkSSHConnection (config : SSHConnectionConfig) (now : Nat)
    (commandTimeout : Nat) : SSHConnection :=
  { client := none
    handlersAttached := false
    config := config
    isConnected := false
    reconnectTimer := none
    lastActivity := now
    commandTimeout := commandTimeout }

/-- `scheduleReconnect()`: clears any pending timer, then arms a 5000 ms
timer iff `Date.now() - lastActivity < 30 * 60 * 1000`. -/
def scheduleReconnect (now : Nat) (s : SSHConnection) : SSHConnection :=
  let s := { s with reconnectTimer := none }
  if (now : Int) - (s.lastActivity : Int) < thirtyMinutesMs then
    { s with reconnectTimer := some reconnectDelayMs }
  else s

/-- Outcome of one attempt to open the transport: the client either emits
`ready` or emits an `error`. -/
inductive ConnectOutcome where
  | ready
  | transportError (msg : String)
deriving Repr, DecidableEq

/-- Environment for one `connect()` call: the filesystem's answer to the
private-key read, the transport outcome, and the wall-clock time at which
the ready/error event is delivered. -/
structure ConnectEnv where
  keyRead : String → Except String String
  outcome : ConnectOutcome
  now : Nat

/-- JavaScript truthiness of an optional string field: `undefined` and the
empty string are both falsy (`if (this.config.privateKeyPath)`). -/
def strTruthy : Option String → Option String
  | some s => if s = "" then none else some s
  | none => none

/-- The tail of `connect()` from the point where the transport is opened:
`client.once('ready', onReady).once('error', onError).connect(cfg)`.
On `ready`: `isConnected := true`, `lastActivity := Date.now()`, resolve.
On `error`: the long-lived `.on('error')` handler also runs (it was
registered first), setting `isConnected := false` and calling
`scheduleReconnect()`; then the `once` handler rejects with the error. -/
def connectFinish (env : ConnectEnv) (fresh : Nat) (s : SSHConnection)
    (cfg : TransportCfg) (tr : List Action) :
    Except String Unit × SSHConnection × List Action :=
  let tr := tr ++ [Action.transportOpen fresh cfg]
  match env.outcome with
  | ConnectOutcome.ready =>
      (Except.ok (), { s with isConnected := true, lastActivity := env.now }, tr)
  | ConnectOutcome.transportError msg =>
      (Except.error msg, scheduleReconnect env.now { s with isConnected := false }, tr)

/-- `connect()`.  Early-returns if already connected; tears down any
previous client (detach listeners, end); builds a new client and attaches
the long-lived error/end/close handlers; resolves the credential
(private-key file read, else password, else throws the auth-configuration
error); finally opens the transport (`connectFinish`). -/
def connect (env : ConnectEnv) (fresh : Nat) (s : SSHConnection) :
    Except String Unit × SSHConnection × List Action :=
  if s.isConnected then (Except.ok (), s, [])
  else
    let tr0 : List Action :=
      match s.client with
      | some c => [Action.removeAllListeners c, Action.endTransport c]
      | none => []
    let s := { s with client := some fresh, handlersAttached := true }
    let tr0 := tr0 ++ [Action.newClient fresh, Action.registerHandlers fresh]
    let cfg : TransportCfg :=
      { host := s.config.host
        port := s.config.port
        username := s.config.username
        keepaliveInterval := s.config.keepaliveInterval.getD 10000
        keepaliveCountMax := s.config.keepaliveCountMax.getD 3
        readyTimeout := s.config.readyTimeout.getD 20000
        privateKey := none
        password := none }
    match strTruthy s.config.privateKeyPath with
    | some p =>
        match env.keyRead p with
        | Except.error e => (Except.error e, s, tr0 ++ [Action.readKeyFile p])
        | Except.ok key =>
            connectFinish env fresh s { cfg with privateKey := some key }
              (tr0 ++ [Action.readKeyFile p])
    | none =>
        match strTruthy s.config.password with
        | some pw => connectFinish env fresh s { cfg with password := some pw } tr0
        | none =>
            (Except.error "No auth method: need password or privateKeyPath", s, tr0)

/-- Delivery of a loss event (error/end/close) emitted by transport `c`.
The session's handler body (`isConnected = false; scheduleReconnect()`)
runs only when the event's client is the session's current client and the
long-lived handlers are still attached; a detached client's late event
reaches no handler. -/
def deliverLossEvent (c : Nat) (now : Nat) (s : SSHConnection) : SSHConnection :=
  if s.client = some c ∧ s.handlersAttached then
    scheduleReconnect now { s with isConnected := false }
  else s

/-- Firing of a pending reconnect timer: its callback is
`this.connect().catch(() => {})` — it runs `connect` and swallows any
failure (the resulting promise value is discarded). -/
def fireReconnectTimer (env : ConnectEnv) (fresh : Nat) (s : SSHConnection) :
    SSHConnection :=
  match s.reconnectTimer with
  | none => s
  | some _ => (connect env fresh { s with reconnectTimer := none }).2.1

/-- Result of `exec`: `{ output, exitCode }`. -/
structure ExecResult where
  output : String
  exitCode : Int
deriving Repr, DecidableEq

/-- Events delivered on the command channel before it closes. -/
inductive ChanEvent where
  | data (chunk : String)
  | stderrData (chunk : String)
deriving Repr, DecidableEq

/-- Environment for one `exec()` call: the reconnect environment (used
when the session is not connected), the time at call start, the channel
open error if any, the stream events, the exit code handed to the close
handler (`none` = transport omitted it), whether the timeout timer fires
before the channel closes, and the time at channel close. -/
structure ExecEnv where
  connectEnv : ConnectEnv
  fresh : Nat
  startNow : Nat
  chanErr : Option String
  events : List ChanEvent
  closeCode : Option Int
  timerFiresFirst : Bool
  closeNow : Nat

/-- Bytes accumulated from the primary output stream (`out`). -/
def accumOut : List ChanEvent → String
  | [] => ""
  | ChanEvent.data c :: rest => c ++ accumOut rest
  | ChanEvent.stderrData _ :: rest => accumOut rest

/-- Bytes accumulated from the error stream (`errOut`). -/
def accumErr : List ChanEvent → String
  | [] => ""
  | ChanEvent.data _ :: rest => accumErr rest
  | ChanEvent.stderrData c :: rest => c ++ accumErr rest

/-- `exec(command)`.  Refreshes `lastActivity`, reconnects if needed
(propagating a reconnect failure), opens a command channel, and then
either rejects on channel-open error, rejects with the timeout error
after forcibly closing the stream (timer fires first), or resolves with
`{ output: out || errOut, exitCode: code || 0 }` when the channel closes
first (also refreshing `lastActivity`). -/
def exec (env : ExecEnv) (command : String) (s : SSHConnection) :
    Except String ExecResult × SSHConnection × List Action :=
  let s := { s with lastActivity := env.startNow }
  let step : Except String Unit × SSHConnection × List Action :=
    if s.isConnected = false ∨ s.client = none then
      connect env.connectEnv env.fresh s
    else (Except.ok (), s, [])
  match step with
  | (Except.error e, s, tr) => (Except.error e, s, tr)
  | (Except.ok _, s, tr) =>
    match s.client with
    | none =>
        -- corresponds to the source's unchecked `this.client!` assertion;
        -- unreachable through the public API
        (Except.error "client is null", s, tr)
    | some _ =>
      match env.chanErr with
      | some e => (Except.error e, s, tr ++ [Action.chanExec command])
      | none =>
        if env.timerFiresFirst then
          (Except.error ("Command timed out after " ++ toString s.commandTimeout ++ "ms"),
           s, tr ++ [Action.chanExec command, Action.streamClose])
        else
          let out := accumOut env.events
          let errOut := accumErr env.events
          (Except.ok
             { output := if out = "" then errOut else out
               exitCode := env.closeCode.getD 0 },
           { s with lastActivity := env.closeNow },
           tr ++ [Action.chanExec command])

/-- `disconnect()`: clear the reconnect timer, detach all listeners and
end the transport if present, null the client, `isConnected = false`. -/
def disconnect (s : SSHConnection) : SSHConnection × List Action :=
  let tr : List Action :=
    match s.client with
    | some c => [Action.removeAllListeners c, Action.endTransport c]
    | none => []
  ({ s with reconnectTimer := none, client := none,
            handlersAttached := false, isConnected := false }, tr)

/-- `isActive()`: `connected && client !== null`. -/
def isActive (s : SSHConnection) : Bool :=
  s.isConnected && s.client.isSome

/-- State of an `SSHConnectionPool`.  Session objects live in `heap`
(index = object identity); `connections` is the id → session map as an
association list with map semantics. -/
structure SSHConnectionPool where
  heap : List SSHConnection
  connections : List (String × Nat)
  commandTimeout : Nat
deriving Repr, DecidableEq

/-- `new SSHConnectionPool(commandTimeout)`. -/
def mkPool (commandTimeout : Nat) : SSHConnectionPool :=
  { heap := [], connections := [], commandTimeout := commandTimeout }

/-- `this.connections.get(id)`: first binding of `id`, if any. -/
def lookupConn (l : List (String × Nat)) (id : String) : Option Nat :=
  match l with
  | [] => none
  | (k, v) :: rest => if k == id then some v else lookupConn rest id

/-- `this.connections.set(id, conn)`: replace the binding if present,
otherwise append. -/
def setConn (id : String) (ref : Nat) : List (String × Nat) → List (String × Nat)
  | [] => [(id, ref)]
  | (k, v) :: rest =>
      if k == id then (id, ref) :: rest else (k, v) :: setConn id ref rest

/-- `this.connections.delete(id)`. -/
def removeConn (id : String) (l : List (String × Nat)) : List (String × Nat) :=
  l.filter (fun p => !(p.1 == id))

/-- `pool.get(id, config)`: create-map-connect when absent (note the map
is updated before the initial `connect` is awaited), reconnect when
present but inactive, return as is when active.  `now` is the time at the
constructor call; `fresh` the id of the client a `connect` would build. -/
def SSHConnectionPool.get (env : ConnectEnv) (fresh : Nat) (now : Nat)
    (id : String) (config : SSHConnectionConfig) (ps : SSHConnectionPool) :
    Except String Nat × SSHConnectionPool × List Action :=
  match lookupConn ps.connections id with
  | none =>
    let conn := mkSSHConnection config now ps.commandTimeout
    let idx := ps.heap.length
    let conns := setConn id idx ps.connections
    match connect env fresh conn with
    | (r, conn2, tr) =>
      let heap := (ps.heap ++ [conn]).set idx conn2
      match r with
      | Except.error e => (Except.error e, { ps with heap := heap, connections := conns }, tr)
      | Except.ok _ => (Except.ok idx, { ps with heap := heap, connections := conns }, tr)
  | some idx =>
    match ps.heap[idx]? with
    | none => (Except.error "invalid session ref", ps, [])
    | some conn =>
      if isActive conn then (Except.ok idx, ps, [])
      else
        match connect env fresh conn with
        | (r, conn2, tr) =>
          let heap := ps.heap.set idx conn2
          match r with
          | Except.error e => (Except.error e, { ps with heap := heap }, tr)
          | Except.ok _ => (Except.ok idx, { ps with heap := heap }, tr)

/-- `pool.close(id)`: disconnect and delete the mapping if present. -/
def SSHConnectionPool.close (id : String) (ps : SSHConnectionPool) :
    SSHConnectionPool × List Action :=
  match lookupConn ps.connections id with
  | none => (ps, [])
  | some idx =>
    match ps.heap[idx]? with
    | none => (ps, [])
    | some conn =>
      let d := disconnect conn
      ({ ps with heap := ps.heap.set idx d.1,
                 connections := removeConn id ps.connections }, d.2)

/-- One iteration of the `closeAll` loop body: `c.disconnect()` for the
session mapped by `pr`. -/
def closeAllStep (h : List SSHConnection) (pr : String × Nat) : List SSHConnection :=
  match h[pr.2]? with
  | none => h
  | some conn => h.set pr.2 (disconnect conn).1

/-- `pool.closeAll()`: `for (const c of this.connections.values())
c.disconnect(); this.connections.clear();`. -/
def SSHConnectionPool.closeAll (ps : SSHConnectionPool) : SSHConnectionPool :=
  { ps with heap := ps.connections.foldl closeAllStep ps.heap, connections := [] }

/-! Concrete sample values used by counterexamples and witnesses. -/

/-- A descriptor with neither `password` nor `privateKeyPath`. -/
def noAuthCfg : SSHConnectionConfig :=
  { host := "h", port := 22, username := "u", privateKeyPath := none,
    password := none, keepaliveInterval := none, keepaliveCountMax := none,
    readyTimeout := none }

/-- A descriptor using password authentication. -/
def pwCfg : SSHConnectionConfig :=
  { host := "h", port := 22, username := "u", privateKeyPath := none,
    password := some "pw", keepaliveInterval := none, keepaliveCountMax := none,
    readyTimeout := none }

/-- An environment whose transport signals ready. -/
def readyEnv : ConnectEnv :=
  { keyRead := fun _ => Except.error "ENOENT", outcome := ConnectOutcome.ready,
    now := 1000 }

/-- An environment whose transport emits an error. -/
def errEnv : ConnectEnv :=
  { keyRead := fun _ => Except.error "ENOENT",
    outcome := ConnectOutcome.transportError "ECONNREFUSED", now := 1000 }

/-- A connected session over `pwCfg` (the state reached by a successful
`connect` on a fresh session). -/
def activeConn : SSHConnection :=
  { client := some 7, handlersAttached := true, config := pwCfg,
    isConnected := true, reconnectTimer := none, lastActivity := 1000,
    commandTimeout := 60000 }

/-- A one-entry pool holding `activeConn` under id `"srv"`. -/
def samplePool : SSHConnectionPool :=
  { heap := [activeConn], connections := [("srv", 0)], commandTimeout := 60000 }

/-- C5: `scheduleReconnect()` cancels any previously pending timer (the
result does not depend on it); it arms a `reconnectDelayMs` (5000 ms)
timer exactly when `now - lastActivity` is strictly under 30 minutes and
otherwise arms nothing; and a pending timer, when it fires, runs
`connect()` and swallows its outcome (the fired timer yields the
post-`connect` state whatever `connect` returned). -/
theorem C5_scheduleReconnect (s : SSHConnection) (now : Nat) :
    scheduleReconnect now s = scheduleReconnect now { s with reconnectTimer := none }
    ∧ (scheduleReconnect now s).reconnectTimer
        = (if (now : Int) - (s.lastActivity : Int) < thirtyMinutesMs
           then some reconnectDelayMs else none)
    ∧ ∀ (env : ConnectEnv) (fresh : Nat),
        fireReconnectTimer env fresh (scheduleReconnect now s)
          = (if (now : Int) - (s.lastActivity : Int) < thirtyMinutesMs
             then (connect env fresh { s with reconnectTimer := none }).2.1
             else scheduleReconnect now s) := by
  refine ⟨rfl, ?_, ?_⟩
  · by_cases h : (now : Int) - (s.lastActivity : Int) < thirtyMinutesMs <;>
      simp [scheduleReconnect, h]
  · intro env fresh
    by_cases h : (now : Int) - (s.lastActivity : Int) < thirtyMinutesMs <;>
      simp [scheduleReconnect, fireReconnectTimer, h]

/-- C8: `disconnect()` cancels the pending reconnect timer, clears the
transport handle, sets `connected` to false, detaches the listeners of
and ends the present transport (and touches no transport when none is
present), is idempotent (and the second call performs no actions), and a
late loss event from any transport delivered after `disconnect()` leaves
the state unchanged — in particular it arms no reconnect timer. -/
theorem C8_disconnect (s : SSHConnection) :
    (disconnect s).1.reconnectTimer = none
    ∧ (disconnect s).1.client = none
    ∧ (disconnect s).1.isConnected = false
    ∧ (disconnect s).2 = (match s.client with
        | some c => [Action.removeAllListeners c, Action.endTransport c]
        | none => [])
    ∧ disconnect (disconnect s).1 = ((disconnect s).1, [])
    ∧ ∀ (c now : Nat), deliverLossEvent c now (disconnect s).1 = (disconnect s).1 := by
  refine ⟨rfl, rfl, rfl, rfl, rfl, ?_⟩
  intro c now
  simp [deliverLossEvent, disconnect]

/-- C6: on a session that is not connected and whose descriptor has
neither `password` nor `privateKeyPath`, `connect()` rejects with the
auth-configuration error, and its action trace contains no transport
open and no key-file read: the failure precedes any network or file
I/O. -/
theorem C6_connect_no_auth (env : ConnectEnv) (fresh : Nat) (s : SSHConnection)
    (hpk : s.config.privateKeyPath = none) (hpw : s.config.password = none)
    (hc : s.isConnected = false) :
    (connect env fresh s).1
        = Except.error "No auth method: need password or privateKeyPath"
    ∧ (∀ (c : Nat) (cfg : TransportCfg),
        Action.transportOpen c cfg ∉ (connect env fresh s).2.2)
    ∧ (∀ p : String, Action.readKeyFile p ∉ (connect env fresh s).2.2) := by
  have h1 : strTruthy s.config.privateKeyPath = none := by rw [hpk]; rfl
  have h2 : strTruthy s.config.password = none := by rw [hpw]; rfl
  cases hcl : s.client <;>
    simp [connect, hc, h1, h2, hcl]

/-- C6 witness: a freshly constructed session over `noAuthCfg` rejects
`connect` with the auth-configuration error. -/
theorem C6_witness :
    (connect readyEnv 0 (mkSSHConnection noAuthCfg 0 60000)).1
      = Except.error "No auth method: need password or privateKeyPath" :=
  (C6_connect_no_auth readyEnv 0 (mkSSHConnection noAuthCfg 0 60000) rfl rfl rfl).1

/-- C9: when `connect()` on a not-connected session resolves its
credential but the transport emits an error, the call rejects with that
error AND the long-lived error handler runs: the resulting state has
`connected = false` and a reconnect timer armed exactly when the idle
time at the event is under 30 minutes. -/
theorem C9_connect_error_schedules_reconnect (env : ConnectEnv) (fresh : Nat)
    (s : SSHConnection) (msg : String)
    (hc : s.isConnected = false)
    (hout : env.outcome = ConnectOutcome.transportError msg)
    (hauth : (∃ p key, strTruthy s.config.privateKeyPath = some p
                ∧ env.keyRead p = Except.ok key)
      ∨ (strTruthy s.config.privateKeyPath = none
                ∧ ∃ pw, strTruthy s.config.password = some pw)) :
    (connect env fresh s).1 = Except.error msg
    ∧ (connect env fresh s).2.1.isConnected = false
    ∧ (connect env fresh s).2.1.reconnectTimer
        = (if (env.now : Int) - (s.lastActivity : Int) < thirtyMinutesMs
           then some reconnectDelayMs else none) := by
  rcases hauth with ⟨p, key, hp, hk⟩ | ⟨hp, pw, hpw⟩
  · by_cases hidle : (env.now : Int) - (s.lastActivity : Int) < thirtyMinutesMs <;>
      simp [connect, connectFinish, scheduleReconnect, hc, hout, hp, hk, hidle]
  · by_cases hidle : (env.now : Int) - (s.lastActivity : Int) < thirtyMinutesMs <;>
      simp [connect, connectFinish, scheduleReconnect, hc, hout, hp, hpw, hidle]

/-- C9 witness: a fresh session over `pwCfg` against an erroring
transport rejects with the transport error and, the idle time being 0,
ends with a 5000 ms reconnect timer armed. -/
theorem C9_witness :
    (connect errEnv 0 (mkSSHConnection pwCfg 1000 60000)).1
        = Except.error "ECONNREFUSED"
    ∧ (connect errEnv 0 (mkSSHConnection pwCfg 1000 60000)).2.1.reconnectTimer
        = some reconnectDelayMs := by
  have h := C9_connect_error_schedules_reconnect errEnv 0
    (mkSSHConnection pwCfg 1000 60000) "ECONNREFUSED" rfl rfl
    (Or.inr ⟨rfl, "pw", rfl⟩)
  exact ⟨h.1, by rw [h.2.2]; decide⟩

/-- C3: on a connected session, when the command channel closes normally
before the timeout, `exec` resolves with output equal to the accumulated
primary-stream bytes if non-empty and otherwise the accumulated
error-stream bytes, and exit code equal to the reported code or 0 when
the transport omitted it; `lastActivity` is refreshed to the close
instant and the only actions are the channel exec itself. -/
theorem C3_exec_normal_close (env : ExecEnv) (command : String)
    (s : SSHConnection) (c : Nat)
    (hc : s.isConnected = true) (hcl : s.client = some c)
    (he : env.chanErr = none) (ht : env.timerFiresFirst = false) :
    exec env command s =
      (Except.ok
         { output := if accumOut env.events = "" then accumErr env.events
                     else accumOut env.events
           exitCode := env.closeCode.getD 0 },
       { s with lastActivity := env.closeNow },
       [Action.chanExec command]) := by
  simp [exec, hc, hcl, he, ht]

/-- C3 witness: a command producing only error-stream output `"boom"` and
exit code 2 resolves with `{output := "boom", exitCode := 2}`. -/
theorem C3_witness :
    exec { connectEnv := readyEnv, fresh := 0, startNow := 2000,
           chanErr := none, events := [ChanEvent.stderrData "boom"],
           closeCode := some 2, timerFiresFirst := false, closeNow := 2500 }
        "false" activeConn
      = (Except.ok { output := "boom", exitCode := 2 },
         { activeConn with lastActivity := 2500 },
         [Action.chanExec "false"]) := by
  rw [C3_exec_normal_close _ _ _ 7 rfl rfl rfl rfl]
  rfl

/-- C4: on a connected session, when the timeout timer fires before the
channel closes, `exec` forcibly closes the stream (the trace ends with
the stream close) and rejects with the timeout error whose message
carries the configured `commandTimeout` value; the constructor default
of that value is 60000 ms. -/
theorem C4_exec_timeout (env : ExecEnv) (command : String)
    (s : SSHConnection) (c : Nat)
    (hc : s.isConnected = true) (hcl : s.client = some c)
    (he : env.chanErr = none) (ht : env.timerFiresFirst = true) :
    exec env command s =
      (Except.error ("Command timed out after " ++ toString s.commandTimeout ++ "ms"),
       { s with lastActivity := env.startNow },
       [Action.chanExec command, Action.streamClose])
    ∧ Action.streamClose ∈ (exec env command s).2.2
    ∧ defaultCommandTimeoutMs = 60000 := by
  refine ⟨?_, ?_, rfl⟩ <;> simp [exec, hc, hcl, he, ht]

/-- C4 witness: on `activeConn` (timeout 60000 ms) a never-returning
command rejects with the message carrying 60000 and the stream is
closed. -/
theorem C4_witness :
    (exec { connectEnv := readyEnv, fresh := 0, startNow := 2000,
            chanErr := none, events := [], closeCode := none,
            timerFiresFirst := true, closeNow := 0 } "sleep inf" activeConn).1
      = Except.error "Command timed out after 60000ms" := by
  have h := C4_exec_timeout
    { connectEnv := readyEnv, fresh := 0, startNow := 2000, chanErr := none,
      events := [], closeCode := none, timerFiresFirst := true, closeNow := 0 }
    "sleep inf" activeConn 7 rfl rfl rfl rfl
  rw [h.1]
  rfl

/-! Helper lemmas about the pool's association list and `connect`. -/

lemma lookup_setConn (id : String) (ref : Nat) (l : List (String × Nat)) :
    lookupConn (setConn id ref l) id = some ref := by
  induction l with
  | nil => simp [setConn, lookupConn]
  | cons hd tl ih =>
    obtain ⟨k, v⟩ := hd
    by_cases h : k = id
    · simp [setConn, lookupConn, h]
    · have hne : (k == id) = false := by simp [h]
      simp [setConn, lookupConn, hne, ih]

lemma connect_config (env : ConnectEnv) (fresh : Nat) (s : SSHConnection) :
    (connect env fresh s).2.1.config = s.config := by
  by_cases hc : s.isConnected = true
  · simp [connect, hc]
  · have hc2 : s.isConnected = false := by simpa using hc
    cases hpk : strTruthy s.config.privateKeyPath with
    | some p =>
      cases hk : env.keyRead p with
      | error e => simp [connect, hc2, hpk, hk]
      | ok key =>
        cases hout : env.outcome with
        | ready => simp [connect, connectFinish, hc2, hpk, hk, hout]
        | transportError m =>
          simp [connect, connectFinish, scheduleReconnect, hc2, hpk, hk, hout]
          split <;> rfl
    | none =>
      cases hpw : strTruthy s.config.password with
      | some pw =>
        cases hout : env.outcome with
        | ready => simp [connect, connectFinish, hc2, hpk, hpw, hout]
        | transportError m =>
          simp [connect, connectFinish, scheduleReconnect, hc2, hpk, hpw, hout]
          split <;> rfl
      | none => simp [connect, hc2, hpk, hpw]

lemma connect_ok_connected (env : ConnectEnv) (fresh : Nat) (s : SSHConnection)
    (h : (connect env fresh s).1 = Except.ok ()) :
    (connect env fresh s).2.1.isConnected = true := by
  by_cases hc : s.isConnected = true
  · simp [connect, hc]
  · have hc2 : s.isConnected = false := by simpa using hc
    cases hpk : strTruthy s.config.privateKeyPath with
    | some p =>
      cases hk : env.keyRead p with
      | error e => simp [connect, hc2, hpk, hk] at h
      | ok key =>
        cases hout : env.outcome with
        | ready => simp [connect, connectFinish, hc2, hpk, hk, hout]
        | transportError m =>
          simp [connect, connectFinish, hc2, hpk, hk, hout] at h
    | none =>
      cases hpw : strTruthy s.config.password with
      | some pw =>
        cases hout : env.outcome with
        | ready => simp [connect, connectFinish, hc2, hpk, hpw, hout]
        | transportError m =>
          simp [connect, connectFinish, hc2, hpk, hpw, hout] at h
      | none => simp [connect, hc2, hpk, hpw] at h

lemma connect_of_connected (env : ConnectEnv) (fresh : Nat) (s : SSHConnection)
    (h : s.isConnected = true) : connect env fresh s = (Except.ok (), s, []) := by
  simp [connect, h]

lemma get_ok_state (env : ConnectEnv) (fresh now : Nat) (id : String)
    (config : SSHConnectionConfig) (ps : SSHConnectionPool) (idx : Nat)
    (h : (SSHConnectionPool.get env fresh now id config ps).1 = Except.ok idx) :
    lookupConn (SSHConnectionPool.get env fresh now id config ps).2.1.connections id = some idx
    ∧ ∃ conn,
        (SSHConnectionPool.get env fresh now id config ps).2.1.heap[idx]? = some conn
        ∧ conn.isConnected = true := by
  cases hl : lookupConn ps.connections id with
  | none =>
    rcases hconn : connect env fresh (mkSSHConnection config now ps.commandTimeout)
      with ⟨r, conn2, tr⟩
    cases r with
    | error e => simp [SSHConnectionPool.get, hl, hconn] at h
    | ok u =>
      have hidx : idx = ps.heap.length := by
        simp [SSHConnectionPool.get, hl, hconn] at h
        omega
      subst hidx
      have hcon : conn2.isConnected = true := by
        have hr : (connect env fresh (mkSSHConnection config now ps.commandTimeout)).1
            = Except.ok () := by rw [hconn]
        have := connect_ok_connected env fresh
          (mkSSHConnection config now ps.commandTimeout) hr
        rw [hconn] at this
        exact this
      refine ⟨?_, conn2, ?_, hcon⟩
      · simp only [SSHConnectionPool.get, hl, hconn]
        exact lookup_setConn id ps.heap.length ps.connections
      · simp only [SSHConnectionPool.get, hl, hconn]
        apply List.getElem?_set_eq_of_lt
        simp
  | some idx0 =>
    cases hh : ps.heap[idx0]? with
    | none => simp [SSHConnectionPool.get, hl, hh] at h
    | some conn =>
      by_cases ha : isActive conn = true
      · have hidx : idx0 = idx := by
          simp [SSHConnectionPool.get, hl, hh, ha] at h
          exact h
        subst hidx
        refine ⟨?_, conn, ?_, ?_⟩
        · simp only [SSHConnectionPool.get, hl, hh, ha, if_true]
        · simp only [SSHConnectionPool.get, hl, hh, ha, if_true]
        · have := ha
          simp [isActive, Bool.and_eq_true] at this
          exact this.1
      · rcases hconn : connect env fresh conn with ⟨r, conn2, tr⟩
        cases r with
        | error e => simp [SSHConnectionPool.get, hl, hh, ha, hconn] at h
        | ok u =>
          have hidx : idx0 = idx := by
            simp [SSHConnectionPool.get, hl, hh, ha, hconn] at h
            exact h
          subst hidx
          have hcon : conn2.isConnected = true := by
            have hr : (connect env fresh conn).1 = Except.ok () := by rw [hconn]
            have := connect_ok_connected env fresh conn hr
            rw [hconn] at this
            exact this
          have hlt : idx0 < ps.heap.length := (List.getElem?_eq_some.mp hh).1
          refine ⟨?_, conn2, ?_, hcon⟩
          · simp only [SSHConnectionPool.get, hl, hh, ha, hconn, Bool.false_eq_true,
              if_false]
          · simp only [SSHConnectionPool.get, hl, hh, ha, hconn, Bool.false_eq_true,
              if_false]
            exact List.getElem?_set_eq_of_lt conn2 hlt

lemma get_mapped_connected (env : ConnectEnv) (fresh now : Nat) (id : String)
    (config : SSHConnectionConfig) (ps : SSHConnectionPool) (idx : Nat)
    (conn : SSHConnection)
    (h1 : lookupConn ps.connections id = some idx) (h2 : ps.heap[idx]? = some conn)
    (h3 : conn.isConnected = true) :
    (SSHConnectionPool.get env fresh now id config ps).1 = Except.ok idx
    ∧ (SSHConnectionPool.get env fresh now id config ps).2.2 = [] := by
  by_cases ha : isActive conn = true
  · simp [SSHConnectionPool.get, h1, h2, ha]
  · have hcon := connect_of_connected env fresh conn h3
    simp [SSHConnectionPool.get, h1, h2, ha, hcon]

/-- C7: when a `pool.get(id, d)` call succeeds (returns the session at
ref `idx`), an immediately following `pool.get(id, d)` — under any
environment — returns the very same session ref and performs no actions
at all: in particular it opens no new transport. -/
theorem C7_get_idempotent (env1 env2 : ConnectEnv) (f1 f2 n1 n2 : Nat)
    (id : String) (d : SSHConnectionConfig) (ps : SSHConnectionPool) (idx : Nat)
    (h : (SSHConnectionPool.get env1 f1 n1 id d ps).1 = Except.ok idx) :
    (SSHConnectionPool.get env2 f2 n2 id d
        (SSHConnectionPool.get env1 f1 n1 id d ps).2.1).1 = Except.ok idx
    ∧ (SSHConnectionPool.get env2 f2 n2 id d
        (SSHConnectionPool.get env1 f1 n1 id d ps).2.1).2.2 = [] := by
  obtain ⟨hl, conn, hh, hc⟩ := get_ok_state env1 f1 n1 id d ps idx h
  exact get_mapped_connected env2 f2 n2 id d _ idx conn hl hh hc

/-- C7 witness: on an empty pool, a first successful `get` of `"srv"`
over `pwCfg` returns ref 0, and the repeated `get` returns ref 0 again
with an empty action trace. -/
theorem C7_witness :
    (SSHConnectionPool.get readyEnv 2 5 "srv" pwCfg
        (SSHConnectionPool.get readyEnv 1 0 "srv" pwCfg (mkPool 60000)).2.1).1
      = Except.ok 0
    ∧ (SSHConnectionPool.get readyEnv 2 5 "srv" pwCfg
        (SSHConnectionPool.get readyEnv 1 0 "srv" pwCfg (mkPool 60000)).2.1).2.2
      = [] :=
  C7_get_idempotent readyEnv readyEnv 1 2 0 5 "srv" pwCfg (mkPool 60000) 0 rfl

/-- C10: when `id` is already mapped, `pool.get(id, d)` is entirely
independent of the supplied descriptor `d` (identical result, state and
actions for any two descriptors), and the session keeps the descriptor it
was created with — also on the reconnect path taken when it is
inactive. -/
theorem C10_get_ignores_descriptor (env : ConnectEnv) (fresh now : Nat)
    (id : String) (d1 d2 : SSHConnectionConfig) (ps : SSHConnectionPool)
    (idx : Nat) (h : lookupConn ps.connections id = some idx) :
    SSHConnectionPool.get env fresh now id d1 ps
      = SSHConnectionPool.get env fresh now id d2 ps
    ∧ ∀ conn, ps.heap[idx]? = some conn →
        ∀ conn2,
          (SSHConnectionPool.get env fresh now id d1 ps).2.1.heap[idx]? = some conn2 →
          conn2.config = conn.config := by
  constructor
  · simp only [SSHConnectionPool.get, h]
  · intro conn hconn conn2 hconn2
    have hlt : idx < ps.heap.length := (List.getElem?_eq_some.mp hconn).1
    by_cases ha : isActive conn = true
    · simp only [SSHConnectionPool.get, h, hconn, ha, if_true] at hconn2
      cases hconn2
      rfl
    · have hcfg : (connect env fresh conn).2.1.config = conn.config :=
        connect_config env fresh conn
      rcases hc : connect env fresh conn with ⟨r, c2, tr⟩
      rw [hc] at hcfg
      cases r with
      | error e =>
        simp only [SSHConnectionPool.get, h, hconn, ha, hc, Bool.false_eq_true,
          if_false] at hconn2
        rw [List.getElem?_set_eq_of_lt c2 hlt] at hconn2
        cases hconn2
        exact hcfg
      | ok u =>
        simp only [SSHConnectionPool.get, h, hconn, ha, hc, Bool.false_eq_true,
          if_false] at hconn2
        rw [List.getElem?_set_eq_of_lt c2 hlt] at hconn2
        cases hconn2
        exact hcfg

/-- C10 witness: on `samplePool` (which maps `"srv"`), `get` with `pwCfg`
and with `noAuthCfg` coincide, and the mapped session keeps its original
descriptor. -/
theorem C10_witness :
    SSHConnectionPool.get readyEnv 9 50 "srv" pwCfg samplePool
      = SSHConnectionPool.get readyEnv 9 50 "srv" noAuthCfg samplePool
    ∧ activeConn.config = activeConn.config :=
  ⟨(C10_get_ignores_descriptor readyEnv 9 50 "srv" pwCfg noAuthCfg samplePool 0
      rfl).1,
   (C10_get_ignores_descriptor readyEnv 9 50 "srv" pwCfg noAuthCfg samplePool 0
      rfl).2 activeConn rfl activeConn rfl⟩

/-- C1 counterexample: on an empty pool, `get("srv", noAuthCfg)` creates
a session whose initial `connect` rejects; the error propagates, but the
pool mapping afterwards STILL contains a session for `"srv"` (ref 0),
contradicting the claim that the pool does not retain a half-constructed
session on failure. -/
theorem C1_counterexample :
    (SSHConnectionPool.get readyEnv 0 0 "srv" noAuthCfg (mkPool 60000)).1
        = Except.error "No auth method: need password or privateKeyPath"
    ∧ lookupConn
        (SSHConnectionPool.get readyEnv 0 0 "srv" noAuthCfg (mkPool 60000)).2.1.connections
        "srv" = some 0 :=
  ⟨rfl, rfl⟩

/-- C1 amended: when `pool.get(id, d)` creates a new session and its
initial `connect()` rejects, the error propagates to the caller, but the
pool mapping afterwards still contains the just-created session for `id`
(the entry was inserted before the connect was awaited and is not removed
on failure). -/
theorem C1_amended (env : ConnectEnv) (fresh now : Nat) (id : String)
    (config : SSHConnectionConfig) (ps : SSHConnectionPool) (e : String)
    (habs : lookupConn ps.connections id = none)
    (hfail : (connect env fresh (mkSSHConnection config now ps.commandTimeout)).1
        = Except.error e) :
    (SSHConnectionPool.get env fresh now id config ps).1 = Except.error e
    ∧ lookupConn (SSHConnectionPool.get env fresh now id config ps).2.1.connections id
        = some ps.heap.length := by
  rcases hconn : connect env fresh (mkSSHConnection config now ps.commandTimeout)
    with ⟨r, conn2, tr⟩
  rw [hconn] at hfail
  cases r with
  | ok u => exact absurd hfail (by simp)
  | error e2 =>
    have he : e2 = e := by
      simpa using hfail
    subst he
    constructor
    · simp only [SSHConnectionPool.get, habs, hconn]
    · simp only [SSHConnectionPool.get, habs, hconn]
      exact lookup_setConn id ps.heap.length ps.connections

/-- C1 amended witness: the concrete failing creation of
`C1_counterexample`, through the amended theorem. -/
theorem C1_amended_witness :
    (SSHConnectionPool.get readyEnv 0 0 "other" noAuthCfg (mkPool 60000)).1
        = Except.error "No auth method: need password or privateKeyPath"
    ∧ lookupConn
        (SSHConnectionPool.get readyEnv 0 0 "other" noAuthCfg (mkPool 60000)).2.1.connections
        "other" = some 0 :=
  C1_amended readyEnv 0 0 "other" noAuthCfg (mkPool 60000)
    "No auth method: need password or privateKeyPath" rfl rfl

/-- The after-`disconnect` shape of a session: not connected, no
transport handle, no pending reconnect timer. -/
def disconnectedState (c : SSHConnection) : Prop :=
  c.isConnected = false ∧ c.client = none ∧ c.reconnectTimer = none

lemma disconnectedState_disconnect (c : SSHConnection) :
    disconnectedState (disconnect c).1 :=
  ⟨rfl, rfl, rfl⟩

lemma closeAllStep_length (h : List SSHConnection) (pr : String × Nat) :
    (closeAllStep h pr).length = h.length := by
  unfold closeAllStep
  split
  · rfl
  · simp

lemma foldl_closeAllStep_length (l : List (String × Nat)) (h : List SSHConnection) :
    (l.foldl closeAllStep h).length = h.length := by
  induction l generalizing h with
  | nil => rfl
  | cons pr tl ih => rw [List.foldl_cons, ih, closeAllStep_length]

lemma closeAllStep_preserves (h : List SSHConnection) (pr : String × Nat)
    (i : Nat) (c : SSHConnection) (hget : h[i]? = some c)
    (hd : disconnectedState c) :
    ∃ c2, (closeAllStep h pr)[i]? = some c2 ∧ disconnectedState c2 := by
  unfold closeAllStep
  cases hpr : h[pr.2]? with
  | none => exact ⟨c, hget, hd⟩
  | some conn =>
    by_cases hi : pr.2 = i
    · subst hi
      have hlt : pr.2 < h.length := (List.getElem?_eq_some.mp hpr).1
      exact ⟨(disconnect conn).1, List.getElem?_set_eq_of_lt _ hlt,
        disconnectedState_disconnect conn⟩
    · rw [List.getElem?_set_ne hi]
      exact ⟨c, hget, hd⟩

lemma foldl_closeAllStep_preserves (l : List (String × Nat))
    (h : List SSHConnection) (i : Nat) (c : SSHConnection)
    (hget : h[i]? = some c) (hd : disconnectedState c) :
    ∃ c2, (l.foldl closeAllStep h)[i]? = some c2 ∧ disconnectedState c2 := by
  induction l generalizing h c with
  | nil => exact ⟨c, hget, hd⟩
  | cons pr tl ih =>
    obtain ⟨c2, hget2, hd2⟩ := closeAllStep_preserves h pr i c hget hd
    exact ih (closeAllStep h pr) c2 hget2 hd2

lemma foldl_closeAllStep_mem (l : List (String × Nat))
    (h : List SSHConnection) (id : String) (i : Nat)
    (hmem : (id, i) ∈ l) (conn : SSHConnection)
    (hget : (l.foldl closeAllStep h)[i]? = some conn) :
    disconnectedState conn := by
  induction l generalizing h with
  | nil => cases hmem
  | cons pr tl ih =>
    rw [List.foldl_cons] at hget
    rcases List.mem_cons.mp hmem with heq | htl
    · subst heq
      cases hpr : h[i]? with
      | none =>
        have hlen : h.length ≤ i := by
          simpa using List.getElem?_eq_none_iff.mp hpr
        have : (tl.foldl closeAllStep (closeAllStep h (id, i)))[i]? = none := by
          apply List.getElem?_eq_none
          rw [foldl_closeAllStep_length, closeAllStep_length]
          exact hlen
        rw [this] at hget
        cases hget
      | some c0 =>
        have hlt : i < h.length := (List.getElem?_eq_some.mp hpr).1
        have hstep : (closeAllStep h (id, i))[i]? = some (disconnect c0).1 := by
          unfold closeAllStep
          rw [hpr]
          exact List.getElem?_set_eq_of_lt _ hlt
        obtain ⟨c2, hget2, hd2⟩ := foldl_closeAllStep_preserves tl
          (closeAllStep h (id, i)) i (disconnect c0).1 hstep
          (disconnectedState_disconnect c0)
        rw [hget2] at hget
        cases hget
        exact hd2
    · exact ih (closeAllStep h pr) htl hget

/-- C2 counterexample: on `samplePool` the id `"srv"` is mapped before
`closeAll()` and unmapped after it — `closeAll` does remove sessions from
the mapping (`connections.clear()`), contradicting the claim that every
entry is left unchanged. -/
theorem C2_counterexample :
    lookupConn samplePool.connections "srv" = some 0
    ∧ lookupConn samplePool.closeAll.connections "srv" = none :=
  ⟨rfl, rfl⟩

/-- C2 amended: `closeAll()` calls `disconnect()` on every mapped session
(every session reachable from the mapping ends not connected, with no
transport handle and no pending timer) and then clears the mapping: the
id-to-session mapping is empty afterwards. -/
theorem C2_amended (ps : SSHConnectionPool) :
    ps.closeAll.connections = []
    ∧ (∀ id : String, lookupConn ps.closeAll.connections id = none)
    ∧ ∀ id i, (id, i) ∈ ps.connections →
        ∀ conn, ps.closeAll.heap[i]? = some conn →
          conn.isConnected = false ∧ conn.client = none
            ∧ conn.reconnectTimer = none := by
  refine ⟨rfl, fun _ => rfl, ?_⟩
  intro id i hmem conn hget
  exact foldl_closeAllStep_mem ps.connections ps.heap id i hmem conn hget

/-- C2 amended witness: on `samplePool`, `closeAll` empties the mapping
and leaves the mapped session disconnected. -/
theorem C2_amended_witness :
    samplePool.closeAll.connections = []
    ∧ ((disconnect activeConn).1.isConnected = false
       ∧ (disconnect activeConn).1.client = none
       ∧ (disconnect activeConn).1.reconnectTimer = none) :=
  ⟨(C2_amended samplePool).1,
   (C2_amended samplePool).2.2 "srv" 0 (by simp [samplePool])
     (disconnect activeConn).1 rfl⟩

end MultiSSH
